import Mathlib

/-!
Verification development for the tipnyan cointip bot.

Shallow embedding of `src/cointipbot.py` (the poll loop, inbox processing,
expiry sweep and startup self-checks) and of `src/ctb/ctb_stats.py`
(`format_value` and the tips-page row rendering).  Machine floats of the
source are modelled as exact rationals; external collaborators that are not
part of this repository's sources (the praw Reddit client, the `ctb_action`,
`ctb_user`, `ctb_misc` modules) are modelled from the spec where a claim
depends on them, and each such definition says so in its doc comment.
-/

/-- Python exception values relevant to `cointipbot.py`.  The first five
constructors are the distinguished transient kinds caught by the tuple at
`check_inbox` line 312: `HTTPError`, `ConnectionError`, `Timeout` (requests),
`RateLimitExceeded` (praw) and `socket.timeout`.  `other` covers every other
exception, carrying its rendered message. -/
inductive PyExc where
  | httpError : PyExc
  | connectionError : PyExc
  | reqTimeout : PyExc
  | rateLimitExceeded : PyExc
  | socketTimeout : PyExc
  | other : String → PyExc
deriving DecidableEq

/-- Whether an exception is caught by the transient tuple
`(HTTPError, ConnectionError, Timeout, RateLimitExceeded, timeout)` at
`cointipbot.py:312`. -/
def isTransient : PyExc → Bool
  | PyExc.other _ => false
  | _ => true

/-- A Reddit inbox message or comment, as used by `check_inbox`
(`cointipbot.py:220-310`): its id, optional author name (system messages
such as ban notices have none), the was_comment flag, subject and body. -/
structure Message where
  id : String
  author : Option String
  wasComment : Bool
  subject : String
  body : String
deriving DecidableEq

/-- The payload of a parsed action, as produced by
`ctb_action.eval_message` / `ctb_action.eval_comment` (external to src/):
action type, initial state, creation time and coin amount.  The source
message id is attached by `mkAction`. -/
structure ActionData where
  atype : String
  state : String
  createdUtc : ℤ
  coinval : ℚ
deriving DecidableEq

/-- A row of the action ledger (table `t_action`): keyed by the source
message id, with type, state, creation time and coin amount.  Modelled from
the spec: §3 Action = {type, source_message_id, amount, state, created_at}. -/
structure ActionRec where
  msgId : String
  atype : String
  state : String
  createdUtc : ℤ
  coinval : ℚ
deriving DecidableEq, Inhabited

/-- Attach the source message id to a parsed action payload.  Modelled from
the spec: the ledger is "keyed by source-message id" (§2, §3). -/
def mkAction (m : Message) (d : ActionData) : ActionRec :=
  { msgId := m.id, atype := d.atype, state := d.state,
    createdUtc := d.createdUtc, coinval := d.coinval }

/-- The bot's observable state: the action ledger, user balances, the set of
messages marked read, and the replies sent (recipient, subject). -/
structure BotState where
  actions : List ActionRec
  balances : List (String × ℚ)
  readIds : List String
  replies : List (String × String)
deriving DecidableEq

/-- Configuration values read by the embedded code: the bot's Reddit user
(`conf[reddit][auth][user]`), the banned-users list
(`conf[reddit][banned_users]`), whether the "didn't understand" reply is
enabled (`conf[reddit][messages][sorry]`), the scan batch limit
(`conf[reddit][scan][batch_limit]`), the sleep interval
(`conf[misc][times][sleep_seconds]`), the pending-tip expiry threshold in
hours (`conf[misc][times][expire_pending_hours]`, a number, possibly
fractional) and whether operator notification is enabled
(`conf[misc][notify][enabled]`). -/
structure Conf where
  botUser : String
  bannedUsers : List String
  replyOnNoMatch : Bool
  batchLimit : Nat
  sleepSeconds : Nat
  expirePendingHours : ℚ
  notifyEnabled : Bool
deriving DecidableEq

/-- Mark a message as read (`ctb_misc.praw_call(m.mark_as_read)`): record
its id in the set of read messages. -/
def markAsRead (s : BotState) (m : Message) : BotState :=
  { s with readIds := m.id :: s.readIds }

/-- Send a private message (`user.tell(subj=..., msg=...)`, external to
src/).  Modelled from the spec: Message Source `reply(message_or_user,
subject, body)`; we record the recipient and subject. -/
def sendTell (toUser subj : String) (s : BotState) : BotState :=
  { s with replies := (toUser, subj) :: s.replies }

/-- Modelled from the spec: `ctb_action.check_action(msg_id=...)` (external
to src/) is the Ledger `exists(source_message_id)` dedup lookup (§4.2). -/
def check_action (msgId : String) (s : BotState) : Bool :=
  s.actions.any (fun a => a.msgId == msgId)

/-- Modelled from the spec: `ctb_action.get_actions(atype, state,
created_utc="< t")` (external to src/) is the Ledger
`list(type, state, created_before)` query (§4.2): the actions of the given
type and state, restricted to those created strictly before the bound when
one is given. -/
def get_actions (atype state : String) (createdBefore : Option ℤ) (s : BotState) :
    List ActionRec :=
  s.actions.filter (fun a =>
    a.atype == atype && a.state == state &&
      (match createdBefore with
       | none => true
       | some t => decide (a.createdUtc < t)))

/-- Modelled from the spec: `Action.expire()` (external to src/) transitions
the action to `expired` "without touching balances" (§4.3 Expiry). -/
def expireAction (a : ActionRec) : ActionRec :=
  { a with state := "expired" }

/-- Modelled from the spec: `action.do()` (external to src/) executes the
parsed action, persisting exactly one ledger record keyed by the source
message id (§4.2 create, §4.3).  Balance effects of execution are outside
the claims below and are not modelled. -/
def doAction (a : ActionRec) (s : BotState) : BotState :=
  { s with actions := a :: s.actions }

/-- Number of ledger records carrying a given source message id. -/
def countMsgId (msgId : String) (l : List ActionRec) : Nat :=
  (l.filter (fun a => a.msgId == msgId)).length

/-- Python `int()` applied to a number: truncation toward zero.  On `ℚ` with
positive denominator this is `num / den` in truncated integer division,
matching `int(self.conf["misc"]["times"]["expire_pending_hours"] * 3600)` at
`cointipbot.py:185`. -/
def pyInt (q : ℚ) : ℤ :=
  q.num / (q.den : ℤ)

/-- Python `str.lower()`: characterwise lowercasing (structural, so that it
evaluates by kernel reduction). -/
def pyLower (s : String) : String :=
  String.mk (s.data.map Char.toLower)

/-- Embedding of `CointipBot.expire_pending_tips` (`cointipbot.py:179-200`):
compute `seconds = int(expire_pending_hours * 3600)` and
`created_before = now - seconds`, fetch the `givetip`/`pending` actions
created strictly before the bound, call `expire()` on each of them (a
pointwise ledger update), and return whether any action was expired.  `now`
stands for `time.mktime(time.gmtime())`. -/
def expire_pending_tips (conf : Conf) (now : ℤ) (s : BotState) : BotState × Bool :=
  let created_before : ℤ := now - pyInt (conf.expirePendingHours * 3600)
  let expired := s.actions.map (fun a =>
    if a.atype == "givetip" && a.state == "pending" &&
        decide (a.createdUtc < created_before)
    then expireAction a else a)
  ({ s with actions := expired },
   decide (0 < (get_actions "givetip" "pending" (some created_before) s).length))

/-- Embedding of the per-message body of `check_inbox`
(`cointipbot.py:220-310`), with the parser call fallible (it is an external
network/DB call): skip-with-mark-read when the message has no author, when a
ledger action already exists for its id, when it is self-authored, or when
the banned-users list is non-empty and contains the author; otherwise
evaluate it, execute the action if one was matched, else optionally send the
templated "didn't understand" reply (only when `conf[reddit][messages][sorry]`
is set and the subject is not "post reply"/"comment reply"), and mark the
message read in every non-raising path. -/
def processMessage (conf : Conf) (evalA : Message → Except PyExc (Option ActionData))
    (s : BotState) (m : Message) : Except (BotState × PyExc) BotState :=
  match m.author with
  | none => Except.ok (markAsRead s m)
  | some author =>
    if check_action m.id s then Except.ok (markAsRead s m)
    else if pyLower author == pyLower conf.botUser then Except.ok (markAsRead s m)
    else if !conf.bannedUsers.isEmpty && conf.bannedUsers.contains author then
      Except.ok (markAsRead s m)
    else
      match evalA m with
      | Except.error e => Except.error (s, e)
      | Except.ok (some d) => Except.ok (markAsRead (doAction (mkAction m d) s) m)
      | Except.ok none =>
        Except.ok (markAsRead
          (if conf.replyOnNoMatch &&
              !((["post reply", "comment reply"] : List String).contains m.subject)
           then sendTell author "What?" s else s) m)

/-- The per-message body of `check_inbox` in the case where the parser does
not raise: same control flow as `processMessage` with a pure parser. -/
def processMessagePure (conf : Conf) (evalA : Message → Option ActionData)
    (s : BotState) (m : Message) : BotState :=
  match m.author with
  | none => markAsRead s m
  | some author =>
    if check_action m.id s then markAsRead s m
    else if pyLower author == pyLower conf.botUser then markAsRead s m
    else if !conf.bannedUsers.isEmpty && conf.bannedUsers.contains author then
      markAsRead s m
    else
      match evalA m with
      | some d => markAsRead (doAction (mkAction m d) s) m
      | none =>
        markAsRead
          (if conf.replyOnNoMatch &&
              !((["post reply", "comment reply"] : List String).contains m.subject)
           then sendTell author "What?" s else s) m

/-- Lift a pure parser to the fallible interface. -/
def pureEval (e : Message → Option ActionData) :
    Message → Except PyExc (Option ActionData) :=
  fun m => Except.ok (e m)

/-- The `for m in messages` loop of `check_inbox` (`cointipbot.py:220-310`):
process each message fully before examining the next; an exception aborts
the rest of the batch, carrying the state reached so far. -/
def processBatch (conf : Conf) (evalA : Message → Except PyExc (Option ActionData))
    (s : BotState) : List Message → Except (BotState × PyExc) BotState
  | [] => Except.ok s
  | m :: rest =>
    match processMessage conf evalA s m with
    | Except.ok next => processBatch conf evalA next rest
    | Except.error r => Except.error r

/-- Modelled from the spec: the Message Source `fetch_unread(limit)` (§6)
returns up to `limit` unread messages, newest first as delivered by
`reddit.get_unread` (the loop reverses them to process oldest first). -/
def fetchUnread (inbox : List Message) (limit : Nat) : List Message :=
  inbox.take limit

/-- The `try:` body of `check_inbox` (`cointipbot.py:208-310`): fetch the
unread batch (`fetchRes` is the outcome of the fetch call, which may raise),
reverse it, and run the per-message loop. -/
def inbox_body (conf : Conf) (evalA : Message → Except PyExc (Option ActionData))
    (fetchRes : Except PyExc (List Message)) (s : BotState) :
    Except (BotState × PyExc) BotState :=
  match fetchRes with
  | Except.error e => Except.error (s, e)
  | Except.ok msgs => processBatch conf evalA s msgs.reverse

/-- Result of one `check_inbox` call: the final state, whether the transient
handler slept, the exception propagating out of the call, and the Python
return value.  The source's general handler at `cointipbot.py:316-318` logs
and swallows (its `raise` is commented out), so `raised` is always `none`;
the field is kept to state the propagation claims. -/
structure InboxOutcome where
  state : BotState
  slept : Bool
  raised : Option PyExc
  retval : Bool
deriving DecidableEq

/-- Embedding of `CointipBot.check_inbox` (`cointipbot.py:202-326`): run the
try-body; on a transient exception (line 312) log, sleep and fall through;
on any other exception (line 316) log and fall through (the re-raise is
commented out); finally return `True`. -/
def check_inbox (conf : Conf) (evalA : Message → Except PyExc (Option ActionData))
    (fetchRes : Except PyExc (List Message)) (s : BotState) : InboxOutcome :=
  match inbox_body conf evalA fetchRes s with
  | Except.ok final => { state := final, slept := false, raised := none, retval := true }
  | Except.error (midSt, e) =>
    if isTransient e then
      { state := midSt, slept := true, raised := none, retval := true }
    else
      { state := midSt, slept := false, raised := none, retval := true }

/-- Result of one iteration of `CointipBot.main` (`cointipbot.py:411-440`):
either the loop continues with the new state, or the `except` handler ran
(log, notify when `conf[misc][notify][enabled]`, `sys.exit(1)`) — the flag
records whether the operator notification was sent. -/
inductive MainResult where
  | cont : BotState → MainResult
  | exitFail : BotState → Bool → MainResult
deriving DecidableEq

/-- Whether the iteration ended in `sys.exit(1)`. -/
def MainResult.exits : MainResult → Bool
  | MainResult.cont _ => false
  | MainResult.exitFail _ _ => true

/-- Embedding of one iteration of `CointipBot.main` (`cointipbot.py:416-440`):
run `expire_pending_tips` (its ledger calls are external and may raise,
modelled by `expireExc`; a raise reaches the `except` handler: log, notify if
enabled, exit 1), then `check_inbox` (which never raises, see above), then
sleep and continue. -/
def main_iteration (conf : Conf) (now : ℤ)
    (evalA : Message → Except PyExc (Option ActionData))
    (fetchRes : Except PyExc (List Message)) (expireExc : Option PyExc)
    (s : BotState) : MainResult :=
  match expireExc with
  | some _ => MainResult.exitFail s conf.notifyEnabled
  | none =>
    let afterExpire := (expire_pending_tips conf now s).1
    let out := check_inbox conf evalA fetchRes afterExpire
    MainResult.cont out.state

/-- External observations needed by `self_checks` (`cointipbot.py:137-177`):
whether the bot user is registered, the bot's own givetip balance (what
`b.get_balance(kind="givetip")` would return), the coin backend balance
(`self.coin.conn.getbalance()`), the rows of `t_users`, and each user's
registration flag and balance.  All come from modules external to src/
(`ctb_user`, `ctb_coin`, the database). -/
structure SelfCheckEnv where
  botRegistered : Bool
  botBalance : ℚ
  coinBalance : ℚ
  users : List String
  userRegistered : String → Bool
  userBalance : String → ℚ

/-- The `t_users` loop at `cointipbot.py:165-175`: every user must be
registered and have a non-negative givetip balance, else raise. -/
def checkUsers (env : SelfCheckEnv) : List String → Except PyExc Bool
  | [] => Except.ok true
  | u :: rest =>
    if !env.userRegistered u then
      Except.error (PyExc.other ("self_checks(): user " ++ u ++ " is_registered() failed"))
    else if env.userBalance u < 0 then
      Except.error (PyExc.other ("self_checks(): user " ++ u ++ " balance is negative"))
    else checkUsers env rest

/-- Sum of the `coinval` amounts of the pending givetip actions, as
accumulated by the loop at `cointipbot.py:150-152`. -/
def pendingTipsSum (s : BotState) : ℚ :=
  (get_actions "givetip" "pending" none s).foldl (fun acc a => acc + a.coinval) 0

/-- Embedding of `CointipBot.self_checks` (`cointipbot.py:137-177`).  Line
148 reads `ctb_balance = user.get_balance(kind="givetip")`, but `user` is a
local variable of the function (first assigned only inside the `t_users`
loop at line 167), so the read raises `UnboundLocalError` before any
comparison happens; the bot user bound to `b` at line 143 is never used for
the balance.  The remainder of the function (the 1e-6 balance comparison,
the coin-balance check and the user loop) is embedded after that failing
bind. -/
def self_checks (_conf : Conf) (env : SelfCheckEnv) (s : BotState) : Except PyExc Bool := do
  let ctb_balance ← (Except.error
    (PyExc.other "UnboundLocalError: local variable user referenced before assignment") :
    Except PyExc ℚ)
  let pending_tips := pendingTipsSum s
  if ctb_balance - pending_tips < -(1 / 1000000 : ℚ) then
    Except.error (PyExc.other "self_checks(): CointipBot balance < total pending tips")
  else if env.coinBalance < 0 then
    Except.error (PyExc.other "self_checks(): negative balance")
  else checkUsers env env.users

/-- The self-check as the spec and the claim describe it (and as line 148
clearly intended): the bot's own balance, `b.get_balance(kind="givetip")`,
compared against the pending-tips sum with the fixed 1e-6 tolerance.  Kept
distinct from `self_checks`, which embeds the code as written. -/
def self_checks_intended (_conf : Conf) (env : SelfCheckEnv) (s : BotState) :
    Except PyExc Bool :=
  let ctb_balance := env.botBalance
  let pending_tips := pendingTipsSum s
  if ctb_balance - pending_tips < -(1 / 1000000 : ℚ) then
    Except.error (PyExc.other "self_checks(): CointipBot balance < total pending tips")
  else if env.coinBalance < 0 then
    Except.error (PyExc.other "self_checks(): negative balance")
  else checkUsers env env.users

/-- A Python value stored in a database row, as handled by
`ctb_stats.format_value`: NULL/None, a string, a float or an integer. -/
inductive Value where
  | vnone : Value
  | vstr : String → Value
  | vfloat : ℚ → Value
  | vint : ℤ → Value
deriving DecidableEq

/-- Python truthiness of a row value (`if not m[k]` at `ctb_stats.py:237`):
None, the empty string, 0 and 0.0 are falsy. -/
def pyTruthy : Value → Bool
  | Value.vnone => false
  | Value.vstr s => !s.isEmpty
  | Value.vfloat q => !(q == 0)
  | Value.vint n => !(n == 0)

/-- `type(m[k]) == float` (`ctb_stats.py:241`). -/
def isFloatV : Value → Bool
  | Value.vfloat _ => true
  | _ => false

/-- `isinstance(m[k], str)` (`ctb_stats.py:246`). -/
def isStrV : Value → Bool
  | Value.vstr _ => true
  | _ => false

/-- The underlying string of a string value (the branches using it are
guarded; a non-string value in those branches would raise `TypeError` in the
source). -/
def asStr : Value → String
  | Value.vstr s => s
  | _ => ""

/-- The underlying rational of a float value (guarded by `isFloatV`). -/
def asFloat : Value → ℚ
  | Value.vfloat q => q
  | _ => 0

/-- Occurrence of a character list inside another (contiguous). -/
def listHasSub (needle : List Char) : List Char → Bool
  | [] => needle.isEmpty
  | c :: rest => needle.isPrefixOf (c :: rest) || listHasSub needle rest

/-- Python `k.find(sub) > -1`: substring containment. -/
def strContains (hay needle : String) : Bool :=
  listHasSub needle.data hay.data

/-- Python slice `s[:n]`. -/
def pyTake (s : String) (n : Nat) : String :=
  String.mk (s.data.take n)

/-- Python slice `s[-n:]`: the last `n` characters (the whole string when it
is shorter). -/
def pyTakeRight (s : String) (n : Nat) : String :=
  String.mk (s.data.drop (s.data.length - n))

/-- A database row, as passed to `format_value`: an association of column
names to values.  A key missing from the row would be a `KeyError` in the
source; callers only pass keys of the result set, and `rowGet` defaults to
None. -/
abbrev Row : Type := List (String × Value)

/-- Row lookup `m[k]`. -/
def rowGet (m : Row) (k : String) : Value :=
  match m.find? (fun p => p.1 == k) with
  | some p => p.2
  | none => Value.vnone

/-- Configuration read by `format_value`: `conf[coin][symbol]`,
`conf[coin][explorer][address]`, `conf[reddit][stats][subreddit]` and
`conf[reddit][stats][page]`. -/
structure StatsConf where
  coinSymbol : String
  explorerAddress : String
  statsSubreddit : String
  statsPage : String
deriving DecidableEq

/-- Rendering primitives from outside the repository, fixed for a given
process environment: `"%.5g" % q` float formatting, `str()` of a float and
of an int, `re.escape`, and
`time.strftime("%Y-%m-%d", time.localtime(t))` (a pure function of the
value once the host timezone database is fixed). -/
structure FmtEnv where
  fmtG5 : ℚ → String
  showFloat : ℚ → String
  showInt : ℤ → String
  reEscape : String → String
  fmtDate : Value → String

/-- Python `str()` of a row value. -/
def pyStr (env : FmtEnv) : Value → String
  | Value.vnone => "None"
  | Value.vstr s => s
  | Value.vfloat q => env.showFloat q
  | Value.vint n => env.showInt n

/-- Embedding of `ctb_stats.format_value` (`ctb_stats.py:231-302`), the
elif-chain on the column name and value type.  The result is `some` of the
returned value, or `none` where the Python function falls through without a
`return` (returning None). -/
def format_value (m : Row) (k : String) (username : String) (conf : StatsConf)
    (env : FmtEnv) (compact : Bool) : Option Value :=
  let v := rowGet m k
  if !pyTruthy v then some (Value.vstr "-")
  else if isFloatV v && strContains k "coin" then
    some (Value.vstr (conf.coinSymbol ++ "&nbsp;" ++ env.fmtG5 (asFloat v)))
  else if strContains k "user" && isStrV v then
    if compact then
      some (Value.vstr
        (if pyLower (asStr v) == pyLower username then "**/u/" ++ asStr v ++ "**"
         else "/u/" ++ asStr v))
    else
      let un := if pyLower (asStr v) == pyLower username then "**" ++ asStr v ++ "**"
        else asStr v
      let toreturn := "[" ++ un ++ "](/u/" ++ env.reEscape (asStr v) ++ ")"
      some (Value.vstr
        (if pyLower (asStr v) != pyLower username then
          toreturn ++ "^[[stats]](/r/" ++ conf.statsSubreddit ++ "/wiki/" ++
            conf.statsPage ++ "_" ++ asStr v ++ ")"
         else toreturn))
  else if strContains k "addr" then
    some (Value.vstr
      ("[" ++ (pyTake (asStr v) 6 ++ "..." ++ pyTakeRight (asStr v) 5) ++ "](" ++
        conf.explorerAddress ++ asStr v ++ ")"))
  else if strContains k "state" then
    if v == Value.vstr "completed" then some (Value.vstr "✓") else some v
  else if strContains k "type" then
    if v == Value.vstr "givetip" then some (Value.vstr "tip")
    else if compact then
      if v == Value.vstr "withdraw" then some (Value.vstr "w") else none
    else none
  else if strContains k "subreddit" then
    some (Value.vstr ("/r/" ++ pyStr env v))
  else if strContains k "link" then
    some (Value.vstr ("[link](" ++ pyStr env v ++ ")"))
  else if strContains k "utc" then
    some (Value.vstr (env.fmtDate v))
  else
    some (Value.vstr (pyStr env v))

/-- The inner row-rendering loop of `ctb_stats.update_tips`
(`ctb_stats.py:110-114`): one displayed row is the list of formatted values
of the row at each result-set column. -/
def renderRow (m : Row) (ks : List String) (username : String) (conf : StatsConf)
    (env : FmtEnv) (compact : Bool) : List (Option Value) :=
  ks.map (fun k => format_value m k username conf env compact)

/-- A concrete configuration for witnesses: bot user `tipnyan`, no banned
users, "didn't understand" replies enabled, batch limit 10, 30 s sleep, 2 h
expiry, notification disabled. -/
def conf0 : Conf :=
  { botUser := "tipnyan", bannedUsers := [], replyOnNoMatch := true,
    batchLimit := 10, sleepSeconds := 30, expirePendingHours := 2,
    notifyEnabled := false }

/-- `conf0` with operator notification enabled. -/
def conf1 : Conf :=
  { conf0 with notifyEnabled := true }

/-- `conf0` with the "didn't understand" reply disabled
(`conf[reddit][messages][sorry]` unset). -/
def conf2 : Conf :=
  { conf0 with replyOnNoMatch := false }

/-- The empty bot state. -/
def s0 : BotState :=
  { actions := [], balances := [], readIds := [], replies := [] }

/-- A concrete inbox message from `alice`. -/
def m1 : Message :=
  { id := "m1", author := some "alice", wasComment := false, subject := "hi",
    body := "+tip bob 1" }

/-- A concrete parsed-tip payload. -/
def d1 : ActionData :=
  { atype := "givetip", state := "pending", createdUtc := 100, coinval := 1 }

/-- The ledger record created for `m1` carrying `d1`. -/
def a1 : ActionRec := mkAction m1 d1

/-- A state whose ledger already holds an action for `m1`'s id. -/
def sDup : BotState :=
  { actions := [a1], balances := [], readIds := [], replies := [] }

/-- A state with one pending tip of 5 coins. -/
def sPend : BotState :=
  { actions := [{ msgId := "mX", atype := "givetip", state := "pending",
                  createdUtc := 0, coinval := 5 }],
    balances := [], readIds := [], replies := [] }

/-- The parser that matches nothing. -/
def e0 : Message → Option ActionData := fun _ => none

/-- The parser that parses every message as the tip `d1`. -/
def e1 : Message → Option ActionData := fun _ => some d1

/-- A concrete self-check environment: bot registered with zero balance,
zero coin balance, no users. -/
def env0 : SelfCheckEnv :=
  { botRegistered := true, botBalance := 0, coinBalance := 0, users := [],
    userRegistered := fun _ => true, userBalance := fun _ => 0 }

/-- A concrete rendering environment for witnesses. -/
def envTriv : FmtEnv :=
  { fmtG5 := fun _ => "", showFloat := fun _ => "", showInt := fun _ => "",
    reEscape := id, fmtDate := fun _ => "" }

/-- A concrete stats configuration for witnesses. -/
def statsConf0 : StatsConf :=
  { coinSymbol := "N", explorerAddress := "https://explorer/",
    statsSubreddit := "tipnyan", statsPage := "tips" }

/-- A concrete completed-tip row. -/
def rowA : Row := [("state", Value.vstr "completed"), ("type", Value.vstr "givetip")]

/-- `rowA` with an extra unrelated column. -/
def rowB : Row :=
  [("state", Value.vstr "completed"), ("type", Value.vstr "givetip"),
   ("extra", Value.vint 7)]

/-- A row whose `type` column holds `register`. -/
def rowT : Row := [("type", Value.vstr "register")]

/-- With a non-raising parser, the fallible per-message body agrees with the
pure one. -/
theorem processMessage_pureEval (conf : Conf) (e : Message → Option ActionData)
    (s : BotState) (m : Message) :
    processMessage conf (pureEval e) s m =
      Except.ok (processMessagePure conf e s m) := by
  cases hA : m.author with
  | none => simp [processMessage, processMessagePure, hA]
  | some author =>
    simp only [processMessage, processMessagePure, pureEval, hA]
    split_ifs <;> first | rfl | (cases hE : e m <;> rfl)

/-- With a non-raising parser, the batch loop is a left fold of the pure
per-message body. -/
theorem processBatch_pureEval (conf : Conf) (e : Message → Option ActionData)
    (ms : List Message) (s : BotState) :
    processBatch conf (pureEval e) s ms =
      Except.ok (ms.foldl (processMessagePure conf e) s) := by
  induction ms generalizing s with
  | nil => rfl
  | cons m rest ih =>
    simp [processBatch, processMessage_pureEval, List.foldl_cons, ih]

/-- `getD` commutes with mapping a function that fixes the default. -/
theorem getD_map_of_fix {α : Type} (f : α → α) (d : α) (hd : f d = d) :
    ∀ (l : List α) (i : Nat), (l.map f).getD i d = f (l.getD i d) := by
  intro l
  induction l with
  | nil => intro i; simp [List.getD, hd]
  | cons a t ih =>
    intro i
    cases i with
    | zero => simp [List.getD]
    | succ n => simpa [List.getD] using ih n

/-- A message id with no ledger record fails the dedup lookup. -/
theorem check_action_eq_false_of_count (msgId : String) (s : BotState)
    (h : countMsgId msgId s.actions = 0) : check_action msgId s = false := by
  unfold countMsgId at h
  rw [List.length_eq_zero] at h
  unfold check_action
  rw [List.any_eq_false]
  intro a ha
  intro hc
  have : a ∈ s.actions.filter (fun a => a.msgId == msgId) :=
    List.mem_filter.mpr ⟨ha, hc⟩
  simp [h] at this

/-- C4: when a transient upstream error (HTTP error, connection error,
timeout, rate-limit) is raised during inbox fetching or batch processing,
`check_inbox` sleeps and returns normally with the state the error handler
received (the handler changes no ledger state), and the main-loop iteration
continues instead of exiting. -/
theorem c4_transient_retry (conf : Conf)
    (evalA : Message → Except PyExc (Option ActionData))
    (fetchRes : Except PyExc (List Message)) (s sMid : BotState) (e : PyExc)
    (now : ℤ) (t : BotState)
    (hbody : inbox_body conf evalA fetchRes s = Except.error (sMid, e))
    (htrans : isTransient e = true) :
    check_inbox conf evalA fetchRes s =
      { state := sMid, slept := true, raised := none, retval := true } ∧
    (main_iteration conf now evalA fetchRes none t).exits = false := by
  constructor
  · unfold check_inbox
    rw [hbody]
    simp [htrans]
  · rfl

theorem c4_transient_retry_witness :
    check_inbox conf0 (pureEval e0) (Except.error PyExc.httpError) s0 =
      { state := s0, slept := true, raised := none, retval := true } ∧
    (main_iteration conf0 0 (pureEval e0) (Except.error PyExc.httpError) none
      s0).exits = false :=
  c4_transient_retry conf0 (pureEval e0) (Except.error PyExc.httpError) s0 s0
    PyExc.httpError 0 s0 rfl rfl

/-- C1 (amended): an exception of a non-transient kind raised during inbox
fetching or message processing is caught inside `check_inbox` by the general
handler (`cointipbot.py:316-318`, whose `raise` is commented out): it is
logged and swallowed, no exception propagates, no sleep happens,
`check_inbox` returns `True`, and the main-loop iteration continues — no
operator notification is sent and the process does not exit. -/
theorem c1_unhandled_swallowed (conf : Conf)
    (evalA : Message → Except PyExc (Option ActionData))
    (fetchRes : Except PyExc (List Message)) (s sMid : BotState) (e : PyExc)
    (now : ℤ) (t : BotState)
    (hbody : inbox_body conf evalA fetchRes s = Except.error (sMid, e))
    (hgen : isTransient e = false) :
    check_inbox conf evalA fetchRes s =
      { state := sMid, slept := false, raised := none, retval := true } ∧
    (main_iteration conf now evalA fetchRes none t).exits = false := by
  constructor
  · unfold check_inbox
    rw [hbody]
    simp [hgen]
  · rfl

theorem c1_unhandled_swallowed_witness :
    check_inbox conf1 (pureEval e0) (Except.error (PyExc.other "ValueError")) s0 =
      { state := s0, slept := false, raised := none, retval := true } ∧
    (main_iteration conf1 0 (pureEval e0)
      (Except.error (PyExc.other "ValueError")) none s0).exits = false :=
  c1_unhandled_swallowed conf1 (pureEval e0)
    (Except.error (PyExc.other "ValueError")) s0 s0 (PyExc.other "ValueError")
    0 s0 rfl rfl

/-- C1 counterexample: with notification enabled, a non-transient exception
(`ValueError`) raised while fetching the inbox does not propagate out of
`check_inbox` (`raised = none`, the call returns `True`) and the main-loop
iteration continues rather than exiting — contradicting the claim that such
an exception propagates, triggers an operator notification and exits the
process. -/
theorem c1_counterexample :
    (check_inbox conf1 (pureEval e0) (Except.error (PyExc.other "ValueError"))
      s0).raised = none ∧
    (check_inbox conf1 (pureEval e0) (Except.error (PyExc.other "ValueError"))
      s0).retval = true ∧
    (main_iteration conf1 0 (pureEval e0)
      (Except.error (PyExc.other "ValueError")) none s0).exits = false :=
  ⟨rfl, rfl, rfl⟩

/-- C5 (amended): an exception raised by the expiry sweep is not swallowed:
`expire_pending_tips` runs inside the `try` of `CointipBot.main`
(`cointipbot.py:416-440`) with no local handler, so the exception reaches
the main-loop `except` handler, which logs it, sends the operator
notification when `conf[misc][notify][enabled]` is set, and exits the
process with status 1; the iteration does not continue. -/
theorem c5_expiry_failure_exits (conf : Conf) (now : ℤ)
    (evalA : Message → Except PyExc (Option ActionData))
    (fetchRes : Except PyExc (List Message)) (e : PyExc) (s : BotState) :
    main_iteration conf now evalA fetchRes (some e) s =
      MainResult.exitFail s conf.notifyEnabled := rfl

/-- C5 counterexample: with notification enabled, a database error raised by
the expiry sweep makes the iteration exit (with the operator notified)
instead of being logged, swallowed, and followed by the inbox fetch of the
same iteration — contradicting the claim. -/
theorem c5_counterexample :
    main_iteration conf1 0 (pureEval e0) (Except.ok [])
      (some (PyExc.other "OperationalError")) s0 =
      MainResult.exitFail s0 true ∧
    (main_iteration conf1 0 (pureEval e0) (Except.ok [])
      (some (PyExc.other "OperationalError")) s0).exits = true :=
  ⟨rfl, rfl⟩

/-- C3: the expiry sweep touches exactly the `givetip` actions in state
`pending` created strictly before `now` minus the configured
`expire_pending_hours` converted to seconds, replacing each by its expired
version; every other action, every balance, and the rest of the state are
unchanged. -/
theorem c3_expiry_sweep (conf : Conf) (now : ℤ) (s : BotState) :
    (expire_pending_tips conf now s).1.balances = s.balances ∧
    (expire_pending_tips conf now s).1.readIds = s.readIds ∧
    (expire_pending_tips conf now s).1.replies = s.replies ∧
    (expire_pending_tips conf now s).1.actions.length = s.actions.length ∧
    ∀ i : Nat,
      (expire_pending_tips conf now s).1.actions.getD i default =
        (if (s.actions.getD i default).atype = "givetip" ∧
            (s.actions.getD i default).state = "pending" ∧
            (s.actions.getD i default).createdUtc <
              now - pyInt (conf.expirePendingHours * 3600)
         then expireAction (s.actions.getD i default)
         else s.actions.getD i default) := by
  refine ⟨rfl, rfl, rfl, by simp [expire_pending_tips], ?_⟩
  intro i
  have hfix :
      (fun a : ActionRec =>
        if a.atype == "givetip" && a.state == "pending" &&
            decide (a.createdUtc < now - pyInt (conf.expirePendingHours * 3600))
        then expireAction a else a) default = default := by
    simp [default]
  have hmap :
      (expire_pending_tips conf now s).1.actions =
        s.actions.map (fun a : ActionRec =>
          if a.atype == "givetip" && a.state == "pending" &&
              decide (a.createdUtc < now - pyInt (conf.expirePendingHours * 3600))
          then expireAction a else a) := rfl
  rw [hmap,
    getD_map_of_fix
      (fun a : ActionRec =>
        if a.atype == "givetip" && a.state == "pending" &&
            decide (a.createdUtc < now - pyInt (conf.expirePendingHours * 3600))
        then expireAction a else a)
      default hfix s.actions i]
  simp only [Bool.and_eq_true, beq_iff_eq, decide_eq_true_eq, and_assoc]

/-- C2: a message whose id already has a ledger action, or that is authored
by the bot itself, or whose author is banned, is skipped and only marked
read — no action is created, nothing is executed, no reply is sent; and a
message that does create an action, when delivered a second time, is caught
by the dedup check, so the ledger ends up with exactly one action for its
id. -/
theorem c2_dedup_idempotence (conf : Conf) (e : Message → Option ActionData)
    (s : BotState) (m : Message) :
    ((check_action m.id s = true ∨
        (∃ u, m.author = some u ∧ pyLower u = pyLower conf.botUser) ∨
        (∃ u, m.author = some u ∧ u ∈ conf.bannedUsers)) →
      processMessagePure conf e s m = markAsRead s m) ∧
    (∀ u d, m.author = some u → pyLower u ≠ pyLower conf.botUser →
      u ∉ conf.bannedUsers → e m = some d → countMsgId m.id s.actions = 0 →
      countMsgId m.id
        (processMessagePure conf e (processMessagePure conf e s m) m).actions =
        1) := by
  constructor
  · intro h
    cases hA : m.author with
    | none => simp [processMessagePure, hA]
    | some u =>
      rcases h with hdup | ⟨u2, hu2, hself⟩ | ⟨u2, hu2, hban⟩
      · simp [processMessagePure, hA, hdup]
      · rw [hA] at hu2
        cases hu2
        by_cases hdup : check_action m.id s
        · simp [processMessagePure, hA, hdup]
        · simp [processMessagePure, hA, hdup, hself]
      · rw [hA] at hu2
        cases hu2
        have hne : ¬conf.bannedUsers = [] := by
          intro hnil
          rw [hnil] at hban
          exact List.not_mem_nil u hban
        by_cases hdup : check_action m.id s
        · simp [processMessagePure, hA, hdup]
        · by_cases hself : pyLower u = pyLower conf.botUser
          · simp [processMessagePure, hA, hdup, hself]
          · simp [processMessagePure, hA, hdup, hself, hne, hban]
  · intro u d hA hself hban hE hcount
    have hdup : check_action m.id s = false :=
      check_action_eq_false_of_count m.id s hcount
    have hstep1 : processMessagePure conf e s m =
        markAsRead (doAction (mkAction m d) s) m := by
      simp [processMessagePure, hA, hdup, hself, hban, hE]
    have hdup2 : check_action m.id (markAsRead (doAction (mkAction m d) s) m) =
        true := by
      simp [check_action, markAsRead, doAction, mkAction]
    have hstep2 : processMessagePure conf e
        (markAsRead (doAction (mkAction m d) s) m) m =
        markAsRead (markAsRead (doAction (mkAction m d) s) m) m := by
      simp [processMessagePure, hA, hdup2]
    rw [hstep1, hstep2]
    show countMsgId m.id (mkAction m d :: s.actions) = 1
    unfold countMsgId
    rw [List.filter_cons]
    simp only [mkAction, beq_self_eq_true, if_true]
    unfold countMsgId at hcount
    simp [hcount]

theorem c2_dedup_idempotence_witness :
    processMessagePure conf0 e0 sDup m1 = markAsRead sDup m1 ∧
    countMsgId m1.id
      (processMessagePure conf0 e1 (processMessagePure conf0 e1 s0 m1)
        m1).actions = 1 :=
  ⟨(c2_dedup_idempotence conf0 e0 sDup m1).1 (Or.inl (by decide)),
   (c2_dedup_idempotence conf0 e1 s0 m1).2 "alice" d1 rfl (by decide)
     (by decide) rfl (by decide)⟩

/-- C7 (amended): a fetched message that reaches the parser (it has an
author and is not skipped as duplicate, self-authored or banned-author) and
produces no matched action gets the templated "didn't understand" reply
exactly when the `conf[reddit][messages][sorry]` setting is enabled and the
message is not itself a reply to the bot's own post or comment (subject
`post reply` / `comment reply`); the message is marked read regardless of
whether a reply was sent. -/
theorem c7_no_match_reply (conf : Conf) (e : Message → Option ActionData)
    (s : BotState) (m : Message) (u : String)
    (hA : m.author = some u)
    (hdup : check_action m.id s = false)
    (hself : pyLower u ≠ pyLower conf.botUser)
    (hban : u ∉ conf.bannedUsers)
    (hE : e m = none) :
    processMessagePure conf e s m =
      markAsRead
        (if conf.replyOnNoMatch &&
            !((["post reply", "comment reply"] : List String).contains m.subject)
         then sendTell u "What?" s else s) m := by
  simp only [processMessagePure, hA, hdup, hE]
  have hselfb : (pyLower u == pyLower conf.botUser) = false :=
    beq_eq_false_iff_ne.mpr hself
  have hcontb : conf.bannedUsers.contains u = false := by
    simpa using hban
  rw [hselfb, hcontb]
  simp

theorem c7_no_match_reply_witness :
    processMessagePure conf0 e0 s0 m1 =
      markAsRead
        (if conf0.replyOnNoMatch &&
            !((["post reply", "comment reply"] : List String).contains m1.subject)
         then sendTell "alice" "What?" s0 else s0) m1 :=
  c7_no_match_reply conf0 e0 s0 m1 "alice" rfl (by decide) (by decide)
    (by decide) rfl

/-- C7 counterexample: with the `sorry` message setting disabled, an
unmatched message from `alice` whose subject is not a post/comment reply is
marked read but no "didn't understand" reply is sent — contradicting the
claim that a reply is sent to the author whenever the message is not itself
a reply to the bot's own post or comment. -/
theorem c7_counterexample :
    (processMessagePure conf2 e0 s0 m1).replies = [] ∧
    ((["post reply", "comment reply"] : List String).contains m1.subject) =
      false ∧
    (processMessagePure conf2 e0 s0 m1).readIds = [m1.id] :=
  ⟨by decide, by decide, by decide⟩

/-- C8: a poll iteration fetches at most the configured batch limit of
unread messages, reverses the fetched sequence, and processes it strictly
oldest-first as a left fold — each message fully handled by the pure
per-message body before the next is examined — ending in a normal return. -/
theorem c8_batch_order (conf : Conf) (e : Message → Option ActionData)
    (inbox : List Message) (s : BotState) :
    (fetchUnread inbox conf.batchLimit).length ≤ conf.batchLimit ∧
    check_inbox conf (pureEval e)
      (Except.ok (fetchUnread inbox conf.batchLimit)) s =
      { state := ((fetchUnread inbox conf.batchLimit).reverse).foldl
          (processMessagePure conf e) s,
        slept := false, raised := none, retval := true } := by
  constructor
  · rw [fetchUnread, List.length_take]
    exact min_le_left _ _
  · have hb : inbox_body conf (pureEval e)
        (Except.ok (fetchUnread inbox conf.batchLimit)) s =
        Except.ok (((fetchUnread inbox conf.batchLimit).reverse).foldl
          (processMessagePure conf e) s) := by
      have hstep : inbox_body conf (pureEval e)
          (Except.ok (fetchUnread inbox conf.batchLimit)) s =
          processBatch conf (pureEval e) s
            (fetchUnread inbox conf.batchLimit).reverse := rfl
      rw [hstep, processBatch_pureEval]
    unfold check_inbox
    rw [hb]

/-- C6 (code bug): `self_checks` always raises `UnboundLocalError` — line
148 of `cointipbot.py` reads the local variable `user` before its first
assignment (which only happens inside the `t_users` loop at line 167), so
the bot-balance / pending-tips comparison is never reached and `self_checks`
never returns `True`.  The intended check (with the bot user `b` bound at
line 143, as the claim describes) does raise when the balance falls short of
the pending-tips sum by more than 1e-6. -/
theorem c6_self_check_unbound (conf : Conf) (env : SelfCheckEnv) (s : BotState) :
    self_checks conf env s =
      Except.error (PyExc.other
        "UnboundLocalError: local variable user referenced before assignment") ∧
    (env.botBalance - pendingTipsSum s < -(1 / 1000000 : ℚ) →
      self_checks_intended conf env s =
        Except.error (PyExc.other
          "self_checks(): CointipBot balance < total pending tips")) := by
  constructor
  · rfl
  · intro h
    simp only [self_checks_intended]
    rw [if_pos h]

theorem c6_self_check_unbound_witness :
    self_checks conf0 env0 sPend =
      Except.error (PyExc.other
        "UnboundLocalError: local variable user referenced before assignment") ∧
    self_checks_intended conf0 env0 sPend =
      Except.error (PyExc.other
        "self_checks(): CointipBot balance < total pending tips") :=
  ⟨(c6_self_check_unbound conf0 env0 sPend).1,
   (c6_self_check_unbound conf0 env0 sPend).2 (by
    have h5 : pendingTipsSum sPend = 5 := by
      simp [pendingTipsSum, get_actions, sPend]
    rw [h5]
    show env0.botBalance - 5 < -(1 / 1000000 : ℚ)
    norm_num [env0])⟩

/-- Formatting a row value depends only on the value stored at the requested
column. -/
theorem format_value_congr (m mAlt : Row) (k username : String)
    (conf : StatsConf) (env : FmtEnv) (compact : Bool)
    (h : rowGet m k = rowGet mAlt k) :
    format_value m k username conf env compact =
      format_value mAlt k username conf env compact := by
  unfold format_value
  rw [h]

/-- C9: rendering a tips-page row is deterministic and drift-free — two rows
that agree on every displayed column render to exactly the same displayed
row, so regenerating the page from unchanged query results yields the same
rendered rows. -/
theorem c9_render_stable (m mAlt : Row) (ks : List String) (username : String)
    (conf : StatsConf) (env : FmtEnv) (compact : Bool)
    (h : ∀ k ∈ ks, rowGet m k = rowGet mAlt k) :
    renderRow m ks username conf env compact =
      renderRow mAlt ks username conf env compact := by
  revert h
  induction ks with
  | nil =>
    intro h
    rfl
  | cons k rest ih =>
    intro h
    have hk : rowGet m k = rowGet mAlt k := h k (List.mem_cons_self k rest)
    have hrest := ih (fun k2 hk2 => h k2 (List.mem_cons_of_mem k hk2))
    unfold renderRow at hrest ⊢
    rw [List.map_cons, List.map_cons,
      format_value_congr m mAlt k username conf env compact hk, hrest]

theorem c9_render_stable_witness :
    renderRow rowA ["state", "type"] "" statsConf0 envTriv false =
      renderRow rowB ["state", "type"] "" statsConf0 envTriv false :=
  c9_render_stable rowA rowB ["state", "type"] "" statsConf0 envTriv false
    (by decide)

/-- C10: when the column name contains `type` (and the earlier branches for
float `coin` columns, string `user` columns, `addr` columns and `state`
columns do not apply), the value is truthy and is not `givetip`, and either
`compact` is off or the value is not `withdraw`, `format_value` falls
through its type branch without a `return` and yields None rather than a
string. -/
theorem c10_type_none (m : Row) (k username : String) (conf : StatsConf)
    (env : FmtEnv) (compact : Bool)
    (htype : strContains k "type" = true)
    (hcoin : ¬(isFloatV (rowGet m k) = true ∧ strContains k "coin" = true))
    (huser : ¬(strContains k "user" = true ∧ isStrV (rowGet m k) = true))
    (haddr : strContains k "addr" = false)
    (hstate : strContains k "state" = false)
    (htruthy : pyTruthy (rowGet m k) = true)
    (hgt : rowGet m k ≠ Value.vstr "givetip")
    (hw : compact = false ∨ rowGet m k ≠ Value.vstr "withdraw") :
    format_value m k username conf env compact = none := by
  rcases hw with hc | hnw
  · subst hc
    simp [format_value, htruthy, hcoin, huser, haddr, hstate, htype, hgt]
  · cases compact <;>
      simp [format_value, htruthy, hcoin, huser, haddr, hstate, htype, hgt, hnw]

theorem c10_type_none_witness :
    format_value rowT "type" "" statsConf0 envTriv false = none :=
  c10_type_none rowT "type" "" statsConf0 envTriv false (by decide) (by decide)
    (by decide) (by decide) (by decide) (by decide) (by decide) (Or.inl rfl)
